import Mathlib

/-!
Verification development for the AI-powered document extraction pipeline
(`solutions.py`).  The core pipeline is embedded shallowly:

* `Json` is the generic structured value produced by parsing a raw model
  response; `parseJson` is an executable JSON reader (strings, numbers kept
  as raw lexemes, arrays, objects as ordered key/value lists, later
  duplicate keys overriding earlier ones, as in Python's `json`/pydantic).
* `ExtractedPair` / `DocumentStructure` mirror the two pydantic models.
  `validateExtractedPair`, `model_validate` and `model_validate_json`
  embed pydantic v2 validation of those models: the `comment` field is
  declared with `alias="Comment"` and `populate_by_name=True`, so on parse
  it is accepted under the alias `"Comment"` and, when the alias key is
  absent, under the attribute name `"comment"`; `Key` and `Value` have no
  alias and are accepted only under those exact names; string fields accept
  JSON strings only (pydantic v2 does not coerce numbers/booleans/null to
  `str`); extra keys are ignored (default `extra='ignore'`), both at the
  top level and inside elements.
* `generate_extraction_prompt`, `extract_data_with_llm`, the row part of
  `create_excel_bytes`, and `init_client` are translated from the source,
  with the external Groq backend abstracted as an explicit function
  argument (the `try`/`except` of the Python code becomes `Except`).
-/

namespace DocTask

/-- Generic structured value of a parsed JSON text.  Numbers are kept as
their raw lexeme: no claim depends on numeric semantics, only on a value
being or not being a string. -/
inductive Json where
  | null : Json
  | boolVal : Bool → Json
  | num : String → Json
  | str : String → Json
  | arr : List Json → Json
  | obj : List (String × Json) → Json

/-- Field lookup in a parsed JSON object.  A later duplicate key overrides
an earlier one, as in Python's `json` / pydantic's JSON reader. -/
def getField (kvs : List (String × Json)) (k : String) : Option Json :=
  match kvs with
  | [] => none
  | (k', v) :: rest =>
    match getField rest k with
    | some r => some r
    | none => if k' = k then some v else none

/-! ### JSON reading (`model_validate_json`'s parse stage) -/

/-- Whitespace recognized between JSON tokens. -/
def isWs (c : Char) : Bool :=
  c = ' ' || c = '\n' || c = '\t' || c = '\r'

/-- Drop leading whitespace. -/
def skipWs : List Char → List Char
  | [] => []
  | c :: rest => if isWs c then skipWs rest else c :: rest

/-- Value of one hexadecimal digit. -/
def hexVal (c : Char) : Option Nat :=
  if '0' ≤ c ∧ c ≤ '9' then some (c.toNat - '0'.toNat)
  else if 'a' ≤ c ∧ c ≤ 'f' then some (c.toNat - 'a'.toNat + 10)
  else if 'A' ≤ c ∧ c ≤ 'F' then some (c.toNat - 'A'.toNat + 10)
  else none

/-- Translation of a single-character JSON escape. -/
def escChar : Char → Option Char
  | '"' => some '"'
  | '\\' => some '\\'
  | '/' => some '/'
  | 'b' => some (Char.ofNat 8)
  | 'f' => some (Char.ofNat 12)
  | 'n' => some '\n'
  | 'r' => some '\r'
  | 't' => some '\t'
  | _ => none

/-- Read the body of a JSON string (the opening quote already consumed),
returning its characters and the input after the closing quote. -/
def parseStringBody : Nat → List Char → Option (List Char × List Char)
  | 0, _ => none
  | _, [] => none
  | _ + 1, '"' :: rest => some ([], rest)
  | fuel + 1, '\\' :: rest =>
    match rest with
    | 'u' :: h1 :: h2 :: h3 :: h4 :: rest2 =>
      match hexVal h1, hexVal h2, hexVal h3, hexVal h4 with
      | some a, some b, some c, some d =>
        (parseStringBody fuel rest2).map
          (fun p => (Char.ofNat (((a * 16 + b) * 16 + c) * 16 + d) :: p.1, p.2))
      | _, _, _, _ => none
    | c :: rest2 =>
      match escChar c with
      | some e => (parseStringBody fuel rest2).map (fun p => (e :: p.1, p.2))
      | none => none
    | [] => none
  | fuel + 1, c :: rest =>
    (parseStringBody fuel rest).map (fun p => (c :: p.1, p.2))

/-- Decimal digit test. -/
def isDigit (c : Char) : Bool := '0' ≤ c && c ≤ '9'

/-- Split off a (possibly empty) run of leading digits. -/
def takeDigits : List Char → List Char × List Char
  | [] => ([], [])
  | c :: rest =>
    if isDigit c then
      let (ds, r) := takeDigits rest
      (c :: ds, r)
    else ([], c :: rest)

/-- Read an optional fractional part `.digits`. -/
def parseFrac : List Char → Option (List Char × List Char)
  | '.' :: rest =>
    let (ds, r) := takeDigits rest
    if ds.isEmpty then none else some ('.' :: ds, r)
  | l => some ([], l)

/-- Read an optional exponent part `e[+-]digits`. -/
def parseExp : List Char → Option (List Char × List Char)
  | [] => some ([], [])
  | c :: rest =>
    if c = 'e' ∨ c = 'E' then
      match rest with
      | s :: rest2 =>
        if s = '+' ∨ s = '-' then
          let (ds, r) := takeDigits rest2
          if ds.isEmpty then none else some (c :: s :: ds, r)
        else
          let (ds, r) := takeDigits rest
          if ds.isEmpty then none else some (c :: ds, r)
      | [] => none
    else some ([], c :: rest)

/-- Read a JSON number, returning its raw lexeme and the rest of the input. -/
def parseNumber (l : List Char) : Option (List Char × List Char) :=
  let (sign, l1) :=
    match l with
    | '-' :: rest => (['-'], rest)
    | _ => (([] : List Char), l)
  let (int, r1) := takeDigits l1
  if int.isEmpty then none
  else
    match parseFrac r1 with
    | none => none
    | some (f, r2) =>
      match parseExp r2 with
      | none => none
      | some (e, r3) => some (sign ++ int ++ f ++ e, r3)

mutual

/-- Read one JSON value.  `fuel` bounds the nesting recursion. -/
def parseValue : Nat → List Char → Option (Json × List Char)
  | 0, _ => none
  | fuel + 1, l =>
    match skipWs l with
    | 'n' :: 'u' :: 'l' :: 'l' :: rest => some (Json.null, rest)
    | 't' :: 'r' :: 'u' :: 'e' :: rest => some (Json.boolVal true, rest)
    | 'f' :: 'a' :: 'l' :: 's' :: 'e' :: rest => some (Json.boolVal false, rest)
    | '"' :: rest =>
      match parseStringBody (rest.length + 1) rest with
      | some (cs, r) => some (Json.str (String.mk cs), r)
      | none => none
    | '[' :: rest =>
      (match skipWs rest with
       | ']' :: r => some (Json.arr [], r)
       | l2 =>
         match parseElems fuel l2 with
         | some (es, r) => some (Json.arr es, r)
         | none => none)
    | '\x7b' :: rest =>
      (match skipWs rest with
       | '\x7d' :: r => some (Json.obj [], r)
       | l2 =>
         match parseMembers fuel l2 with
         | some (ms, r) => some (Json.obj ms, r)
         | none => none)
    | l2 =>
      match parseNumber l2 with
      | some (cs, r) => some (Json.num (String.mk cs), r)
      | none => none

/-- Read the comma-separated elements of a non-empty JSON array, including
the closing bracket. -/
def parseElems : Nat → List Char → Option (List Json × List Char)
  | 0, _ => none
  | fuel + 1, l =>
    match parseValue fuel l with
    | none => none
    | some (j, r) =>
      match skipWs r with
      | ',' :: r2 =>
        (match parseElems fuel r2 with
         | some (js, r3) => some (j :: js, r3)
         | none => none)
      | ']' :: r2 => some ([j], r2)
      | _ => none

/-- Read the comma-separated members of a non-empty JSON object, including
the closing brace. -/
def parseMembers : Nat → List Char → Option (List (String × Json) × List Char)
  | 0, _ => none
  | fuel + 1, l =>
    match skipWs l with
    | '"' :: rest =>
      (match parseStringBody (rest.length + 1) rest with
       | none => none
       | some (kcs, r) =>
         match skipWs r with
         | ':' :: r2 =>
           (match parseValue fuel r2 with
            | none => none
            | some (v, r3) =>
              match skipWs r3 with
              | ',' :: r4 =>
                (match parseMembers fuel r4 with
                 | some (ms, r5) => some ((String.mk kcs, v) :: ms, r5)
                 | none => none)
              | '\x7d' :: r4 => some ([(String.mk kcs, v)], r4)
              | _ => none)
         | _ => none)
    | _ => none

end

/-- Parse a whole raw response text as one JSON value; trailing
non-whitespace makes the text unparseable. -/
def parseJson (s : String) : Option Json :=
  match parseValue (s.length + 1) s.toList with
  | some (j, r) => if (skipWs r).isEmpty then some j else none
  | none => none

/-! ### Pydantic models (`ExtractedPair`, `DocumentStructure`) -/

/-- Represents a single row of data for the Excel output.  The internal
attribute name of the third field is `comment`; its wire-facing alias is
`"Comment"`. -/
structure ExtractedPair where
  Key : String
  Value : String
  comment : String
deriving DecidableEq

/-- The root model for the structured document output, enforcing the
top-level key `extracted_data`. -/
structure DocumentStructure where
  extracted_data : List ExtractedPair
deriving DecidableEq

/-- Typed validation failure of `model_validate_json`.  `jsonInvalid` is
the parse-stage failure (malformed output); every other constructor is a
schema violation, the element-level ones carrying the offending element's
index and field name. -/
inductive ValidationError where
  | jsonInvalid : ValidationError
  | notObject : ValidationError
  | missingEnvelope : ValidationError
  | envelopeNotList : ValidationError
  | elementNotObject : Nat → ValidationError
  | missingField : Nat → String → ValidationError
  | fieldNotString : Nat → String → ValidationError
deriving DecidableEq

/-- Whether a validation failure is a schema violation (parseable text of
the wrong shape) as opposed to malformed output. -/
def ValidationError.isSchemaViolation : ValidationError → Bool
  | .jsonInvalid => false
  | _ => true

/-- Source of the `comment` field inside one element: the alias
`"Comment"` is consulted first; because of `populate_by_name=True` the
attribute name `"comment"` is accepted when the alias key is absent. -/
def commentField (kvs : List (String × Json)) : Option Json :=
  match getField kvs "Comment" with
  | some j => some j
  | none => getField kvs "comment"

/-- Pydantic validation of one array element against `ExtractedPair`:
the element must be an object; `Key` and `Value` must be present under
exactly those names and be JSON strings; the comment field must be present
(via `commentField`) and be a JSON string — the empty string is a value
like any other.  Extra keys are ignored. -/
def validateExtractedPair (idx : Nat) (j : Json) :
    Except ValidationError ExtractedPair :=
  match j with
  | .obj kvs =>
    match getField kvs "Key" with
    | none => .error (.missingField idx "Key")
    | some (.str k) =>
      match getField kvs "Value" with
      | none => .error (.missingField idx "Value")
      | some (.str v) =>
        match commentField kvs with
        | none => .error (.missingField idx "Comment")
        | some (.str c) => .ok ⟨k, v, c⟩
        | some _ => .error (.fieldNotString idx "Comment")
      | some _ => .error (.fieldNotString idx "Value")
    | some _ => .error (.fieldNotString idx "Key")
  | _ => .error (.elementNotObject idx)

/-- Validate the elements of the envelope array in order, `idx` being the
position of the first one; the first failing element rejects the whole
list. -/
def validateElems (idx : Nat) : List Json → Except ValidationError (List ExtractedPair)
  | [] => .ok []
  | e :: rest =>
    match validateExtractedPair idx e with
    | .error err => .error err
    | .ok p =>
      match validateElems (idx + 1) rest with
      | .error err => .error err
      | .ok ps => .ok (p :: ps)

/-- Pydantic validation of a parsed value against `DocumentStructure`: the
top level must be an object carrying `extracted_data` as an array; extra
top-level keys are ignored (`extra` defaults to `ignore`). -/
def model_validate (j : Json) : Except ValidationError DocumentStructure :=
  match j with
  | .obj kvs =>
    match getField kvs "extracted_data" with
    | none => .error .missingEnvelope
    | some (.arr elems) =>
      (match validateElems 0 elems with
       | .error err => .error err
       | .ok ps => .ok ⟨ps⟩)
    | some _ => .error .envelopeNotList
  | _ => .error .notObject

/-- `DocumentStructure.model_validate_json`: parse the raw text, then
validate the parsed value. -/
def model_validate_json (s : String) : Except ValidationError DocumentStructure :=
  match parseJson s with
  | none => .error .jsonInvalid
  | some j => model_validate j

/-! ### Instruction Builder (`generate_extraction_prompt`) -/

/-- Output of `DocumentStructure.model_json_schema(by_alias=True)`
serialized by `json.dumps(..., indent=2)`: a fixed text fully determined
by the two model declarations, independent of the document. -/
def schema_template_dump : String :=
  "\x7b\n  \"$defs\": \x7b\n    \"ExtractedPair\": \x7b\n      \"description\": \"Represents a single row of data for the Excel output.\",\n      \"properties\": \x7b\n        \"Key\": \x7b\n          \"description\": \"The determined key/label for the data point.\",\n          \"title\": \"Key\",\n          \"type\": \"string\"\n        \x7d,\n        \"Value\": \x7b\n          \"description\": \"The exact original phrasing or fact from the PDF.\",\n          \"title\": \"Value\",\n          \"type\": \"string\"\n        \x7d,\n        \"Comment\": \x7b\n          \"description\": \"Residual text from the source or supplementary context. MUST be '' if Key/Value is sufficient.\",\n          \"title\": \"Comment\",\n          \"type\": \"string\"\n        \x7d\n      \x7d,\n      \"required\": [\n        \"Key\",\n        \"Value\",\n        \"Comment\"\n      ],\n      \"title\": \"ExtractedPair\",\n      \"type\": \"object\"\n    \x7d\n  \x7d,\n  \"description\": \"The root model for the structured document output, enforcing the top-level key.\",\n  \"properties\": \x7b\n    \"extracted_data\": \x7b\n      \"description\": \"This array MUST contain ALL extracted Key:Value:Comment pairs.\",\n      \"items\": \x7b\n        \"$ref\": \"#/$defs/ExtractedPair\"\n      \x7d,\n      \"title\": \"Extracted Data\",\n      \"type\": \"array\"\n    \x7d\n  \x7d,\n  \"required\": [\n    \"extracted_data\"\n  ],\n  \"title\": \"DocumentStructure\",\n  \"type\": \"object\"\n\x7d"

/-- Text of the instruction before the interpolated schema dump. -/
def promptHeader : String :=
  "\n    You are an advanced AI Data Structuring and Extraction Engine. Your task is to transform the provided\n    unstructured document text into a structured JSON format.\n\n    ## SCHEMA DEFINITION (CRITICAL):\n    Your final output MUST be a JSON object that STRICTLY conforms to the following schema structure. \n    The single top-level key MUST be \"extracted_data\" containing an array of objects.\n\n    "

/-- Text of the instruction between the schema dump and the interpolated
document text. -/
def promptMethodology : String :=
  "\n\n    ## PROCESSING METHODOLOGY (MANDATORY CHAIN-OF-THOUGHT):\n    You MUST process the document by following these steps for every unique sentence or clause:\n    1.  **IDENTIFY SOURCE:** Select one complete, logical sentence or clause from the document text.\n    2.  **EXTRACT CORE VALUE:** From that source, extract the single, most important factual metric or phrase. This is the **Value**.\n    3.  **DETERMINE KEY:** Create the most appropriate, concise, and logical **Key** for the fact identified in Step 2.\n    4.  **CAPTURE CONTEXT/RESIDUAL:** Place any remaining associated text from the *original source sentence* that was NOT used in the Key or Value into the **Comment**. If the Key and Value capture the entire logical idea, the comment MUST be **EMPTY (\"\")**.\n\n    ## STRICT RULES FOR FIDELITY:\n    1.  **100% Capture:** All content MUST be captured across the three columns (Key, Value, Comment). Nothing is summarized or omitted.\n    2.  **Language Preservation (CRITICAL):**\n        * The **Value** MUST **Retain the exact original wording, sentence structure, and phrasing from the PDF**.\n        * **Avoid paraphrasing unless required to form a clean key:value pair**.\n        * **Do not introduce new information** or fabricate details.\n    3.  **Final Output:** You MUST output ONLY the JSON object. DO NOT include any introductory text, markdown, or commentary outside of the JSON block.\n\n    ## DOCUMENT TEXT TO BE PROCESSED:\n    ---\n    "

/-- Text of the instruction after the interpolated document text. -/
def promptFooter : String :=
  "\n    ---\n    "

/-- Creates the optimized system prompt: a pure concatenation of fixed
text, the schema dump, and the document text. -/
def generate_extraction_prompt (document_text : String) : String :=
  promptHeader ++ schema_template_dump ++ promptMethodology ++ document_text
    ++ promptFooter

/-! ### Model Invoker and pipeline (`extract_data_with_llm`) -/

/-- Model identifier constant. -/
def LLM_MODEL : String := "llama-3.3-70b-versatile"

/-- One outbound chat-completion request: system and user messages, model
identifier, response-format type and decoding temperature, exactly the
arguments the source passes to `client.chat.completions.create`. -/
structure ChatRequest where
  system_message : String
  user_message : String
  model : String
  response_format_type : String
  temperature : ℚ

/-- The backend call either raises (left) or returns the raw response
text of `chat_completion.choices[0].message.content` (right). -/
def Backend : Type := ChatRequest → Except String String

/-- The LLM extraction step: build the prompt, invoke the backend with a
JSON-only response format at temperature 0, validate the raw response.
Any exception — invocation failure, malformed output or schema violation —
is caught by the enclosing `try`/`except`, which returns `None`. -/
def extract_data_with_llm (backend : Backend) (document_text : String) :
    Option (List ExtractedPair) :=
  let system_prompt := generate_extraction_prompt document_text
  match backend ⟨system_prompt,
      "BEGIN EXTRACTION: Return the structured JSON immediately.",
      LLM_MODEL, "json_object", 0⟩ with
  | .error _ => none
  | .ok json_string =>
    match model_validate_json json_string with
    | .error _ => none
    | .ok data_model => some data_model.extracted_data

/-- A backend whose call succeeds and returns the fixed raw text `s`. -/
def constBackend (s : String) : Backend := fun _ => .ok s

/-- A backend whose call raises with message `msg`. -/
def failBackend (msg : String) : Backend := fun _ => .error msg

/-! ### Record Exporter (row part of `create_excel_bytes`) -/

/-- `item.model_dump(by_alias=True)`: the dictionary serialization of one
record, emitting the wire alias `"Comment"` for the internal `comment`
attribute. -/
def model_dump_by_alias (item : ExtractedPair) : List (String × String) :=
  [("Key", item.Key), ("Value", item.Value), ("Comment", item.comment)]

/-- Dictionary indexing `row[k]` on a dumped record. -/
def lookupStr (row : List (String × String)) (k : String) : String :=
  match row.find? (fun kv => kv.1 = k) with
  | some kv => kv.2
  | none => ""

/-- The worksheet row appended for one record:
`[row["Key"], row["Value"], row["Comment"]]`. -/
def rowOf (item : ExtractedPair) : List String :=
  let row := model_dump_by_alias item
  [lookupStr row "Key", lookupStr row "Value", lookupStr row "Comment"]

/-- The full sequence of worksheet rows written by `create_excel_bytes`:
the header row followed by one row per record, in record order. -/
def create_excel_rows (extracted_data : List ExtractedPair) : List (List String) :=
  ["Key", "Value", "Comment"] :: extracted_data.map rowOf

/-- Re-import of one exported row triple back into a record. -/
def reparseRow (r : List String) : Option ExtractedPair :=
  match r with
  | [k, v, c] => some ⟨k, v, c⟩
  | _ => none

/-- Re-import of a sequence of exported row triples. -/
def reparseRows : List (List String) → Option (List ExtractedPair)
  | [] => some []
  | r :: rest =>
    match reparseRow r with
    | none => none
    | some p =>
      match reparseRows rest with
      | none => none
      | some ps => some (p :: ps)

/-! ### Client initialization (`init_client`) -/

/-- The external Groq library surface used by `init_client`: constructing
a client from an API key (`Groq(api_key=...)`) and the connectivity health
check (`client.models.list()`); either may raise. -/
structure GroqBackend (Client : Type) where
  construct : String → Except String Client
  models_list : Client → Except String Unit

/-- Initializes and returns the Groq client.  An empty key is refused up
front; any exception from construction or from the health check is caught
and reported as `(none, false)`. -/
def init_client {Client : Type} (backend : GroqBackend Client)
    (api_key : String) : Option Client × Bool :=
  if api_key = "" then (none, false)
  else
    match backend.construct api_key with
    | .error _ => (none, false)
    | .ok client =>
      match backend.models_list client with
      | .error _ => (none, false)
      | .ok _ => (some client, true)

/-- A Groq surface whose construction and health check both succeed, used
to exercise `init_client` on concrete inputs. -/
def okGroq : GroqBackend Unit := ⟨fun _ => .ok (), fun _ => .ok ()⟩

/-! ### Helper lemmas -/

/-- The row appended for a record is exactly its field triple: the
dictionary lookups on the dumped record hit the three aliased keys. -/
theorem rowOf_eq (p : ExtractedPair) : rowOf p = [p.Key, p.Value, p.comment] := rfl

/-- Re-importing the exported row of a record yields the record back. -/
theorem reparseRow_rowOf (p : ExtractedPair) : reparseRow (rowOf p) = some p := rfl

/-- If validation of the raw response fails, the pipeline returns `none`. -/
theorem extract_none_of_validate_error (s d : String) (e : ValidationError)
    (h : model_validate_json s = .error e) :
    extract_data_with_llm (constBackend s) d = none := by
  simp [extract_data_with_llm, constBackend, h]

/-- A failing element at position `i` (counted from `start`) makes the
whole element-list validation fail. -/
theorem validateElems_error_of_elem (elems : List Json) :
    ∀ (start i : Nat) (h : i < elems.length) (e : ValidationError),
      validateExtractedPair (start + i) (elems.get ⟨i, h⟩) = .error e →
      ∃ e', validateElems start elems = .error e' := by
  induction elems with
  | nil => intro start i h e _; exact absurd h (by simp)
  | cons x rest ih =>
    intro start i h e hfail
    match i with
    | 0 =>
      refine ⟨e, ?_⟩
      simp only [List.get, Nat.add_zero] at hfail
      simp [validateElems, hfail]
    | i' + 1 =>
      have hrec := ih (start + 1) i' (by simpa using Nat.lt_of_succ_lt_succ h) e
        (by simpa [Nat.add_assoc, Nat.add_comm 1 i'] using hfail)
      obtain ⟨e', he'⟩ := hrec
      cases hx : validateExtractedPair start x with
      | error e'' => exact ⟨e'', by simp [validateElems, hx]⟩
      | ok p => exact ⟨e', by simp [validateElems, hx, he']⟩

/-! ### Claim theorems -/

/-- A parsed value whose top level is an object carrying the envelope key
`extracted_data` as a sequence. -/
def envelopeShapeOk (j : Json) : Prop :=
  ∃ kvs elems, j = Json.obj kvs ∧
    getField kvs "extracted_data" = some (Json.arr elems)

/-- C1 counterexample: a raw response whose top level carries the
recognized envelope key and an extra top-level key `"data"` does not have
exactly the envelope key, yet the validator accepts it and the pipeline
returns a Document Extraction Result — extra top-level keys are ignored,
not rejected. -/
theorem envelope_extra_keys_accepted :
    model_validate_json "\x7b\"extracted_data\": [], \"data\": []\x7d" =
      .ok ⟨[]⟩ ∧
    extract_data_with_llm
      (constBackend "\x7b\"extracted_data\": [], \"data\": []\x7d") "doc" =
      some [] :=
  ⟨rfl, rfl⟩

/-- C1 amended: a raw response whose top-level structured value is not an
object, lacks the envelope key `extracted_data`, or maps it to a
non-sequence is rejected as a Schema Violation and yields no result;
however extra top-level keys beside a well-formed `extracted_data`
sequence are ignored rather than rejected: the validation outcome is
exactly that of the envelope entry alone. -/
theorem envelope_strictness_amended :
    (∀ (s d : String) (j : Json), parseJson s = some j →
      ¬ envelopeShapeOk j →
      ∃ e, model_validate_json s = .error e ∧
        e.isSchemaViolation = true ∧
        extract_data_with_llm (constBackend s) d = none) ∧
    (∀ (s : String) (kvs : List (String × Json)) (elems : List Json),
      parseJson s = some (Json.obj kvs) →
      getField kvs "extracted_data" = some (Json.arr elems) →
      model_validate_json s =
        model_validate (Json.obj [("extracted_data", Json.arr elems)])) := by
  constructor
  · intro s d j hp hno
    have hval : ∃ e, model_validate j = .error e ∧ e.isSchemaViolation = true := by
      cases j with
      | null => exact ⟨.notObject, rfl, rfl⟩
      | boolVal b => exact ⟨.notObject, rfl, rfl⟩
      | num n => exact ⟨.notObject, rfl, rfl⟩
      | str t => exact ⟨.notObject, rfl, rfl⟩
      | arr l => exact ⟨.notObject, rfl, rfl⟩
      | obj kvs =>
        cases hget : getField kvs "extracted_data" with
        | none => exact ⟨.missingEnvelope, by simp [model_validate, hget], rfl⟩
        | some jv =>
          cases jv with
          | arr elems => exact absurd ⟨kvs, elems, rfl, hget⟩ hno
          | null => exact ⟨.envelopeNotList, by simp [model_validate, hget], rfl⟩
          | boolVal b => exact ⟨.envelopeNotList, by simp [model_validate, hget], rfl⟩
          | num n => exact ⟨.envelopeNotList, by simp [model_validate, hget], rfl⟩
          | str t => exact ⟨.envelopeNotList, by simp [model_validate, hget], rfl⟩
          | obj kvs2 => exact ⟨.envelopeNotList, by simp [model_validate, hget], rfl⟩
    obtain ⟨e, he, hsv⟩ := hval
    have hmv : model_validate_json s = .error e := by
      simp [model_validate_json, hp, he]
    exact ⟨e, hmv, hsv, extract_none_of_validate_error s d e hmv⟩
  · intro s kvs elems hp hget
    simp only [model_validate_json, hp]
    simp [model_validate, hget, getField]

/-- C1 amended witness: the spec's example `\x7b"data": []\x7d` is
rejected with no result, and a response with an extra top-level key
validates exactly like its envelope entry alone. -/
theorem envelope_strictness_amended_witness :
    (∃ e, model_validate_json "\x7b\"data\": []\x7d" = .error e ∧
      e.isSchemaViolation = true ∧
      extract_data_with_llm (constBackend "\x7b\"data\": []\x7d") "doc" = none) ∧
    model_validate_json "\x7b\"extracted_data\": [], \"x\": 1\x7d" =
      model_validate (Json.obj [("extracted_data", Json.arr [])]) :=
  ⟨envelope_strictness_amended.1 "\x7b\"data\": []\x7d" "doc"
      (Json.obj [("data", Json.arr [])]) rfl
      (by
        rintro ⟨kvs, elems, h, hg⟩
        cases h
        rw [show getField [("data", Json.arr [])] "extracted_data" = none from rfl]
          at hg
        exact Option.noConfusion hg),
   envelope_strictness_amended.2 "\x7b\"extracted_data\": [], \"x\": 1\x7d"
      [("extracted_data", Json.arr []), ("x", Json.num "1")] [] rfl rfl⟩

/-- C2 counterexample: an element spelling the comment field with the
internal lowercase name `comment` instead of the wire alias `Comment` is
accepted, and its value lands in the comment field of the validated
record — the validator does not accept the field only under the single
external wire name. -/
theorem lowercase_comment_accepted :
    model_validate_json
      "\x7b\"extracted_data\": [\x7b\"Key\": \"k\", \"Value\": \"v\", \"comment\": \"c\"\x7d]\x7d" =
      .ok ⟨[⟨"k", "v", "c"⟩]⟩ :=
  rfl

/-- C2 amended: `Key` and `Value` are accepted under exactly those names;
the comment field is accepted under the external wire alias `Comment`
and — because `populate_by_name=True` — also under the internal attribute
name `comment` when the alias key is absent; no other spelling is
accepted.  An element validates to record `p` exactly when the three
lookups resolve to the string fields of `p`. -/
theorem field_alias_two_spellings (i : Nat) (kvs : List (String × Json))
    (p : ExtractedPair) :
    validateExtractedPair i (Json.obj kvs) = .ok p ↔
      (getField kvs "Key" = some (Json.str p.Key) ∧
       getField kvs "Value" = some (Json.str p.Value) ∧
       commentField kvs = some (Json.str p.comment)) := by
  constructor
  · intro h
    simp only [validateExtractedPair] at h
    repeat' split at h
    all_goals simp_all
    exact ⟨congrArg ExtractedPair.Key h, congrArg ExtractedPair.Value h,
      congrArg ExtractedPair.comment h⟩
  · rintro ⟨hK, hV, hC⟩
    simp [validateExtractedPair, hK, hV, hC]

/-- C3: validation is all-or-nothing — a raw response in which some
element is missing a required field or has a non-string field is rejected
whole: validation errors out and the pipeline returns no Document
Extraction Result, never a result built from the valid subset. -/
theorem validation_all_or_nothing (s d : String) (kvs : List (String × Json))
    (elems : List Json) (i : Nat) (h : i < elems.length) (f : String)
    (hp : parseJson s = some (Json.obj kvs))
    (hget : getField kvs "extracted_data" = some (Json.arr elems))
    (hbad : validateExtractedPair i (elems.get ⟨i, h⟩) =
        .error (.missingField i f) ∨
      validateExtractedPair i (elems.get ⟨i, h⟩) =
        .error (.fieldNotString i f)) :
    (∃ e, model_validate_json s = .error e) ∧
      extract_data_with_llm (constBackend s) d = none := by
  have hfail : ∃ e0, validateExtractedPair i (elems.get ⟨i, h⟩) = .error e0 := by
    rcases hbad with h1 | h1
    exacts [⟨_, h1⟩, ⟨_, h1⟩]
  obtain ⟨e0, he0⟩ := hfail
  obtain ⟨e', he'⟩ := validateElems_error_of_elem elems 0 i h e0
    (by simpa using he0)
  have hmv : model_validate_json s = .error e' := by
    simp [model_validate_json, hp, model_validate, hget, he']
  exact ⟨⟨e', hmv⟩, extract_none_of_validate_error s d e' hmv⟩

/-- Raw response text of five elements in which element 3 lacks the
`Value` field. -/
def responseMissingValue3of5 : String :=
  "\x7b\"extracted_data\": [\x7b\"Key\": \"k1\", \"Value\": \"v1\", \"Comment\": \"\"\x7d, \x7b\"Key\": \"k2\", \"Value\": \"v2\", \"Comment\": \"\"\x7d, \x7b\"Key\": \"k3\", \"Comment\": \"c3\"\x7d, \x7b\"Key\": \"k4\", \"Value\": \"v4\", \"Comment\": \"\"\x7d, \x7b\"Key\": \"k5\", \"Value\": \"v5\", \"Comment\": \"\"\x7d]\x7d"

/-- Parsed elements of `responseMissingValue3of5`. -/
def elemsMissingValue3of5 : List Json :=
  [Json.obj [("Key", Json.str "k1"), ("Value", Json.str "v1"), ("Comment", Json.str "")],
   Json.obj [("Key", Json.str "k2"), ("Value", Json.str "v2"), ("Comment", Json.str "")],
   Json.obj [("Key", Json.str "k3"), ("Comment", Json.str "c3")],
   Json.obj [("Key", Json.str "k4"), ("Value", Json.str "v4"), ("Comment", Json.str "")],
   Json.obj [("Key", Json.str "k5"), ("Value", Json.str "v5"), ("Comment", Json.str "")]]

set_option maxRecDepth 40000 in
/-- C3 witness: the concrete five-element response whose third element
lacks `Value` is rejected whole — no 4-of-5 partial result. -/
theorem validation_all_or_nothing_witness :
    (∃ e, model_validate_json responseMissingValue3of5 = .error e) ∧
      extract_data_with_llm (constBackend responseMissingValue3of5) "doc" = none :=
  validation_all_or_nothing responseMissingValue3of5 "doc"
    [("extracted_data", Json.arr elemsMissingValue3of5)]
    elemsMissingValue3of5 2 (by decide) "Value" rfl rfl (Or.inl rfl)

/-- C4 counterexample: an invocation failure, a malformed (unparseable)
output and a schema violation are all surfaced to the caller as the same
undifferentiated value `none`, which carries no element index or field
name — the pipeline does not surface three distinct typed failures to the
caller. -/
theorem failures_collapse_to_none :
    (extract_data_with_llm (failBackend "connection refused") "doc" = none ∧
     extract_data_with_llm (constBackend "not a json response") "doc" = none ∧
     extract_data_with_llm (constBackend "\x7b\"data\": []\x7d") "doc" = none) ∧
    extract_data_with_llm (failBackend "connection refused") "doc" =
      extract_data_with_llm (constBackend "\x7b\"data\": []\x7d") "doc" :=
  ⟨⟨rfl, rfl, rfl⟩, rfl⟩

/-- C4 amended: every pipeline failure — invocation failure, malformed
output, or schema violation — is surfaced to the caller as the single
value `none`; internally the validation stage does distinguish malformed
output (`jsonInvalid`) from schema violations, and a missing-field schema
violation carries the offending element's index and field name, but this
detail is only rendered in the UI error message, never returned to the
caller. -/
theorem failure_surfacing_amended :
    (∀ (d msg : String), extract_data_with_llm (failBackend msg) d = none) ∧
    (∀ (d s : String), parseJson s = none →
      model_validate_json s = .error ValidationError.jsonInvalid ∧
      extract_data_with_llm (constBackend s) d = none) ∧
    (∀ (d s : String) (e : ValidationError), model_validate_json s = .error e →
      extract_data_with_llm (constBackend s) d = none) ∧
    (∀ (i : Nat) (kvs : List (String × Json)), getField kvs "Key" = none →
      validateExtractedPair i (Json.obj kvs) =
        .error (ValidationError.missingField i "Key")) := by
  refine ⟨fun d msg => rfl, ?_, ?_, ?_⟩
  · intro d s hs
    have hmv : model_validate_json s = .error ValidationError.jsonInvalid := by
      simp [model_validate_json, hs]
    exact ⟨hmv, extract_none_of_validate_error s d _ hmv⟩
  · intro d s e he
    exact extract_none_of_validate_error s d e he
  · intro i kvs h
    simp [validateExtractedPair, h]

/-- C4 amended witness: concrete instances of the three failure classes
each yield `none`, the malformed one through `jsonInvalid`, and a concrete
element with no `Key` produces the index-and-field-carrying internal
error. -/
theorem failure_surfacing_amended_witness :
    extract_data_with_llm (failBackend "timeout") "d" = none ∧
    (model_validate_json "not a json response" =
        .error ValidationError.jsonInvalid ∧
      extract_data_with_llm (constBackend "not a json response") "d" = none) ∧
    extract_data_with_llm (constBackend "\x7b\x7d") "d" = none ∧
    validateExtractedPair 0 (Json.obj []) =
      .error (ValidationError.missingField 0 "Key") :=
  ⟨failure_surfacing_amended.1 "d" "timeout",
   failure_surfacing_amended.2.1 "d" "not a json response" rfl,
   failure_surfacing_amended.2.2.1 "d" "\x7b\x7d"
     ValidationError.missingEnvelope rfl,
   failure_surfacing_amended.2.2.2 0 [] rfl⟩

/-- C5: Round-trip shape — for every valid Document Extraction Result,
exporting its records to row triples (the rows after the header row) and
re-parsing those triples reconstructs exactly the same ordered sequence of
(Key, Value, Comment) records, order preserved. -/
theorem export_roundtrip (data : List ExtractedPair) :
    reparseRows ((create_excel_rows data).tail) = some data := by
  have h : ∀ l : List ExtractedPair, reparseRows (l.map rowOf) = some l := by
    intro l
    induction l with
    | nil => rfl
    | cons p rest ih => simp [reparseRows, reparseRow_rowOf, ih]
  exact h data

/-- C6: Empty-comment legality — an element whose `Key` and `Value` fields
are strings and whose comment field is the empty string validates
successfully (it is neither coerced to null nor rejected as missing), a
response made of such elements validates, and the empty string is
preserved through validation and export. -/
theorem empty_comment_legal (i : Nat) (kvs : List (String × Json)) (k v : String)
    (hK : getField kvs "Key" = some (Json.str k))
    (hV : getField kvs "Value" = some (Json.str v))
    (hC : commentField kvs = some (Json.str "")) :
    validateExtractedPair i (Json.obj kvs) = .ok ⟨k, v, ""⟩ ∧
    model_validate (Json.obj [("extracted_data", Json.arr [Json.obj kvs])]) =
      .ok ⟨[⟨k, v, ""⟩]⟩ ∧
    rowOf ⟨k, v, ""⟩ = [k, v, ""] := by
  have helem : validateExtractedPair 0 (Json.obj kvs) = .ok ⟨k, v, ""⟩ := by
    simp [validateExtractedPair, hK, hV, hC]
  refine ⟨by simp [validateExtractedPair, hK, hV, hC], ?_, rfl⟩
  simp [model_validate, getField, validateElems, helem]

/-- C6 witness: a concrete element with `Comment` equal to `""` validates
and exports with the empty string intact. -/
theorem empty_comment_legal_witness :
    validateExtractedPair 0 (Json.obj [("Key", Json.str "GPA"),
        ("Value", Json.str "8.7"), ("Comment", Json.str "")]) =
      .ok ⟨"GPA", "8.7", ""⟩ ∧
    model_validate (Json.obj [("extracted_data", Json.arr [Json.obj
        [("Key", Json.str "GPA"), ("Value", Json.str "8.7"),
         ("Comment", Json.str "")]])]) = .ok ⟨[⟨"GPA", "8.7", ""⟩]⟩ ∧
    rowOf ⟨"GPA", "8.7", ""⟩ = ["GPA", "8.7", ""] :=
  empty_comment_legal 0 _ "GPA" "8.7" rfl rfl rfl

/-- C7: Instruction determinism — the Instruction Builder is a pure
function of the document text: identical document texts yield
byte-identical instruction strings. -/
theorem instruction_determinism (d1 d2 : String) (h : d1 = d2) :
    generate_extraction_prompt d1 = generate_extraction_prompt d2 := by
  rw [h]

/-- C7 witness: building the instruction twice from the same concrete
document text yields the identical string. -/
theorem instruction_determinism_witness :
    generate_extraction_prompt "GPA: 8.7 on a 10-point scale." =
      generate_extraction_prompt "GPA: 8.7 on a 10-point scale." :=
  instruction_determinism _ _ rfl

/-- C8: the Record Exporter produces the header row
`["Key", "Value", "Comment"]` followed by one row per record in record
order, each row the fixed-order triple of the record's fields read from
the alias-keyed dump; it is a total function, succeeding on every
validated result. -/
theorem exporter_rows (data : List ExtractedPair) :
    create_excel_rows data = ["Key", "Value", "Comment"] :: data.map rowOf ∧
    (∀ p, rowOf p = [lookupStr (model_dump_by_alias p) "Key",
      lookupStr (model_dump_by_alias p) "Value",
      lookupStr (model_dump_by_alias p) "Comment"] ∧
      rowOf p = [p.Key, p.Value, p.comment]) ∧
    (create_excel_rows data).length = data.length + 1 ∧
    (∀ i : Nat, (create_excel_rows data).drop (i + 1) = (data.drop i).map rowOf) := by
  refine ⟨rfl, fun p => ⟨rfl, rfl⟩, by simp [create_excel_rows], fun i => ?_⟩
  simp [create_excel_rows, List.map_drop]

/-- C9: client initialization is total and returns a pair: `(none, false)`
when the key is empty, when construction raises, or when the health check
raises; `(some client, true)` exactly when the key is non-empty and both
construction and the health check succeed. -/
theorem init_client_total_spec (Client : Type) (backend : GroqBackend Client)
    (api_key : String) :
    (api_key = "" → init_client backend api_key = (none, false)) ∧
    (∀ e, backend.construct api_key = .error e →
      init_client backend api_key = (none, false)) ∧
    (∀ c e, backend.construct api_key = .ok c →
      backend.models_list c = .error e →
      init_client backend api_key = (none, false)) ∧
    (∀ c, api_key ≠ "" → backend.construct api_key = .ok c →
      backend.models_list c = .ok () →
      init_client backend api_key = (some c, true)) ∧
    (∀ c, init_client backend api_key = (some c, true) →
      api_key ≠ "" ∧ backend.construct api_key = .ok c ∧
        backend.models_list c = .ok ()) := by
  refine ⟨fun h => by simp [init_client, h], ?_, ?_, ?_, ?_⟩
  · intro e he
    by_cases h : api_key = ""
    · simp [init_client, h]
    · simp [init_client, h, he]
  · intro c e hc he
    by_cases h : api_key = ""
    · simp [init_client, h]
    · simp [init_client, h, hc, he]
  · intro c h hc hm
    simp [init_client, h, hc, hm]
  · intro c h
    by_cases hk : api_key = ""
    · simp [init_client, hk] at h
    · refine ⟨hk, ?_⟩
      simp only [init_client, hk, if_false] at h
      cases hc : backend.construct api_key with
      | error e => simp [hc] at h
      | ok c' =>
        cases hm : backend.models_list c' with
        | error e => simp [hc, hm] at h
        | ok u =>
          simp [hc, hm] at h
          cases u
          exact ⟨congrArg Except.ok h, h ▸ hm⟩

/-- C9 witness: with a concrete backend whose construction and health
check succeed, a non-empty key yields `(some client, true)` and the empty
key yields `(none, false)`. -/
theorem init_client_total_spec_witness :
    init_client okGroq "gsk_key" = (some (), true) ∧
    init_client okGroq "" = (none, false) :=
  ⟨(init_client_total_spec Unit okGroq "gsk_key").2.2.2.1 () (by simp) rfl rfl,
   (init_client_total_spec Unit okGroq "").1 rfl⟩

/-- C10: export output is independent of input field spelling — a raw
element carrying the comment under the alias `"Comment"` and one carrying
it under the internal name `"comment"`, with identical string values,
validate to the same record, and dumping always emits the alias name
`Comment`, so export rows and preview rows are identical. -/
theorem export_spelling_independent (i : Nat) (k v c : String) :
    validateExtractedPair i (Json.obj [("Key", Json.str k),
      ("Value", Json.str v), ("Comment", Json.str c)]) = .ok ⟨k, v, c⟩ ∧
    validateExtractedPair i (Json.obj [("Key", Json.str k),
      ("Value", Json.str v), ("comment", Json.str c)]) = .ok ⟨k, v, c⟩ ∧
    model_dump_by_alias ⟨k, v, c⟩ = [("Key", k), ("Value", v), ("Comment", c)] ∧
    rowOf ⟨k, v, c⟩ = [k, v, c] :=
  ⟨rfl, rfl, rfl, rfl⟩

end DocTask
